import Mathlib

/-!
Shallow embedding of the `transitionable` crate (`src/lib.rs`, `src/poison.rs`).

The crate provides `Transitionable<T>`, a container holding either a value of
type `T` (`Inner::Ok`) or, in unwind-capable builds, the `Inner::Poisoned`
marker left behind when the transformation passed to `transition` panicked.

Modelling conventions:
- The unwind-capable build (`cfg(not(panic = "abort"))`) is embedded as
  `Inner`/`Transitionable`; the abort build (`cfg(panic = "abort")`) as
  `InnerAbort`/`TransitionableAbort`, whose `Inner` type has only the `Ok`
  variant, matching the conditional compilation of the `Poisoned` variant.
- Rust functions that can panic are embedded through their `try_*` variants,
  which the public surface merely `unwrap`s: a returned
  `Except.error PoisonError.new` is exactly a panic of the public operation.
- `try_transition` mutates the container in place and returns `&mut Self`.
  The embedding returns a pair: the `Except` result (holding, on success, the
  returned reference, i.e. the container state it points at) and the final
  state of the container itself.
- `core::mem::replace(&mut dst, src)` is embedded as `memReplace`, returning
  (value now stored in `dst`, value previously in `dst`).
- References `&T`/`&mut T` handed out by `try_get`/`try_get_mut`/`Deref` are
  embedded as the value they point at.
-/

namespace Crate

/-- `enum Inner<T> { Ok(T), Poisoned }` in the unwind-capable build
(`Poisoned` is present because `cfg(not(panic = "abort"))` holds). -/
inductive Inner (T : Type) where
  | ok : T → Inner T
  | poisoned : Inner T
deriving DecidableEq

/-- `pub struct Transitionable<T>(Inner<T>)`, unwind-capable build. -/
structure Transitionable (T : Type) where
  inner : Inner T
deriving DecidableEq

/-- `pub(crate) struct PoisonError { _private: () }` (unwind-capable build:
the `_never: Infallible` field is compiled out). -/
structure PoisonError where
  privateUnit : Unit
deriving DecidableEq

/-- `PoisonError::new`. -/
def PoisonError.new : PoisonError :=
  ⟨()⟩

/-- The string written by `impl Display for PoisonError`:
`"poisoned transitionable: lost value due to panic in previous transition".fmt(f)`. -/
def poisonErrorDisplay : String :=
  "poisoned transitionable: lost value due to panic in previous transition"

/-- `Transitionable::new(value)`: wraps the value in `Inner::Ok`. -/
def Transitionable.new {T : Type} (value : T) : Transitionable T :=
  ⟨Inner.ok value⟩

/-- `Transitionable::try_into_inner`. -/
def Transitionable.try_into_inner {T : Type} (t : Transitionable T) :
    Except PoisonError T :=
  match t.inner with
  | Inner.ok value => Except.ok value
  | Inner.poisoned => Except.error PoisonError.new

/-- `core::mem::replace(&mut dst, src)`: returns the pair
(value now stored at `dst`, old value that was at `dst`). -/
def memReplace {T : Type} (dst src : Inner T) : Inner T × Inner T :=
  (src, dst)

/-- The container state right after
`core::mem::replace(&mut transitionable.0, Inner::Poisoned {})` inside
`try_transition` — the state an observer would see while `f` runs. -/
def Transitionable.transitionMidState {T : Type} (t : Transitionable T) :
    Transitionable T :=
  ⟨(memReplace t.inner Inner.poisoned).1⟩

/-- `Transitionable::try_transition` (unwind-capable branch): swap the inner
state to `Poisoned`, examine the old value; on `Poisoned` return the error
(leaving the container in the swapped-in state), otherwise store
`Inner::Ok(f(value))` and return the mutable reference to the container.
Result: (returned `Result<&mut Self, PoisonError>`, final container state). -/
def Transitionable.try_transition {T : Type} (t : Transitionable T) (f : T → T) :
    Except PoisonError (Transitionable T) × Transitionable T :=
  let old := (memReplace t.inner Inner.poisoned).2
  let mid := Transitionable.transitionMidState t
  match old with
  | Inner.poisoned => (Except.error PoisonError.new, mid)
  | Inner.ok value =>
      let fin : Transitionable T := ⟨Inner.ok (f value)⟩
      (Except.ok fin, fin)

/-- `Transitionable::is_poisoned` (unwind-capable branch):
`matches!(transitionable.0, Inner::Poisoned)`. -/
def Transitionable.is_poisoned {T : Type} (t : Transitionable T) : Bool :=
  match t.inner with
  | Inner.poisoned => true
  | Inner.ok _ => false

/-- `Transitionable::try_get` (backs `Deref::deref`). -/
def Transitionable.try_get {T : Type} (t : Transitionable T) :
    Except PoisonError T :=
  match t.inner with
  | Inner.ok value => Except.ok value
  | Inner.poisoned => Except.error PoisonError.new

/-- `Transitionable::try_get_mut` (backs `DerefMut::deref_mut`). -/
def Transitionable.try_get_mut {T : Type} (t : Transitionable T) :
    Except PoisonError T :=
  match t.inner with
  | Inner.ok value => Except.ok value
  | Inner.poisoned => Except.error PoisonError.new

/-- Derived `PartialEq` on `Inner<T>`: variant tags must match and the
`Ok` payloads are compared with `T`'s equality. -/
def Inner.beq {T : Type} [BEq T] : Inner T → Inner T → Bool
  | Inner.ok a, Inner.ok b => a == b
  | Inner.poisoned, Inner.poisoned => true
  | Inner.ok _, Inner.poisoned => false
  | Inner.poisoned, Inner.ok _ => false

/-- Derived `PartialEq` on `Transitionable<T>`: compares the single field. -/
def Transitionable.beq {T : Type} [BEq T] (a b : Transitionable T) : Bool :=
  Inner.beq a.inner b.inner

/-- `enum Inner<T>` in the abort build: the `Poisoned` variant is compiled
out by `cfg(not(panic = "abort"))`, leaving only `Ok`. -/
inductive InnerAbort (T : Type) where
  | ok : T → InnerAbort T
deriving DecidableEq

/-- `pub struct Transitionable<T>(Inner<T>)`, abort build. -/
structure TransitionableAbort (T : Type) where
  inner : InnerAbort T
deriving DecidableEq

/-- `Transitionable::new`, abort build. -/
def TransitionableAbort.new {T : Type} (value : T) : TransitionableAbort T :=
  ⟨InnerAbort.ok value⟩

/-- `Transitionable::try_transition` (abort branch): `core::ptr::read` the
current `Inner::Ok(value)`, apply `f`, `core::ptr::write` the result back,
return `Ok(transitionable)`. No failure path exists. -/
def TransitionableAbort.try_transition {T : Type} (t : TransitionableAbort T)
    (f : T → T) : TransitionableAbort T :=
  match t.inner with
  | InnerAbort.ok value => ⟨InnerAbort.ok (f value)⟩

/-- `Transitionable::is_poisoned` (abort branch): `_ = transitionable; false`. -/
def TransitionableAbort.is_poisoned {T : Type} (_ : TransitionableAbort T) :
    Bool :=
  false

/-- Applies `Transitionable::transition` for each function in the list in
order, modelling an arbitrary history of transition calls (abort build). -/
def TransitionableAbort.applyAll {T : Type} (t : TransitionableAbort T) :
    List (T → T) → TransitionableAbort T
  | [] => t
  | f :: fs => TransitionableAbort.applyAll (t.try_transition f) fs

/-- Maps an abort-build container to the unwind-build container holding the
same value, for comparing the two `try_transition` strategies. -/
def absAbort {T : Type} (t : TransitionableAbort T) : Transitionable T :=
  match t.inner with
  | InnerAbort.ok value => ⟨Inner.ok value⟩

/-- Claim C1: for every container holding a value and every transformation `f`
that completes normally, `transition` succeeds returning a reference to the
container, the dereferenced value afterwards is `f` of the old value, and
`is_poisoned` is false. -/
theorem transition_updates_value {T : Type} (t : Transitionable T) (v : T)
    (f : T → T) (h : t.inner = Inner.ok v) :
    (t.try_transition f).1 = Except.ok (t.try_transition f).2 ∧
    (t.try_transition f).2.try_get = Except.ok (f v) ∧
    (t.try_transition f).2.is_poisoned = false := by
  cases t with
  | mk i =>
    cases i with
    | ok w =>
        simp only [Inner.ok.injEq] at h
        subst h
        simp [Transitionable.try_transition, memReplace,
          Transitionable.transitionMidState, Transitionable.try_get,
          Transitionable.is_poisoned]
    | poisoned => simp at h

/-- Witness for C1: the spec scenario `Transitionable::new(1)` transitioned
with `|x| x + 1`. -/
theorem transition_updates_value_witness :
    ((Transitionable.new 1).try_transition (fun x : Nat => x + 1)).1 =
        Except.ok ((Transitionable.new 1).try_transition (fun x : Nat => x + 1)).2 ∧
    ((Transitionable.new 1).try_transition (fun x : Nat => x + 1)).2.try_get =
        Except.ok 2 ∧
    ((Transitionable.new 1).try_transition
        (fun x : Nat => x + 1)).2.is_poisoned = false :=
  transition_updates_value (Transitionable.new 1) 1 (fun x : Nat => x + 1) rfl

/-- Claim C2: `into_inner(new(v))` returns exactly `v` and does not panic. -/
theorem into_inner_new_round_trip {T : Type} (v : T) :
    (Transitionable.new v).try_into_inner = Except.ok v :=
  rfl

/-- Claim C3: `try_transition` swaps the internal state to `Poisoned` before
invoking `f`, so on a container holding a value the state observed whenever
`f` does not return normally is `Poisoned` and `is_poisoned` reports true. -/
theorem transition_poisons_before_f {T : Type} (t : Transitionable T) (v : T)
    (h : t.inner = Inner.ok v) :
    t.transitionMidState.is_poisoned = true := by
  cases t with
  | mk i =>
      simp [Transitionable.transitionMidState, memReplace,
        Transitionable.is_poisoned]

/-- Witness for C3: the mid-transition state of `Transitionable::new(())` is
poisoned. -/
theorem transition_poisons_before_f_witness :
    (Transitionable.new ()).transitionMidState.is_poisoned = true :=
  transition_poisons_before_f (Transitionable.new ()) () rfl

/-- Claim C4: on a poisoned container, `into_inner`, `transition`, `deref`
and `deref_mut` all panic (their try-variants return the poison error), and
`transition` fails without invoking `f`: its outcome does not depend on `f`. -/
theorem poisoned_ops_panic {T : Type} (t : Transitionable T)
    (h : t.inner = Inner.poisoned) :
    t.try_into_inner = Except.error PoisonError.new ∧
    t.try_get = Except.error PoisonError.new ∧
    t.try_get_mut = Except.error PoisonError.new ∧
    (∀ f : T → T, (t.try_transition f).1 = Except.error PoisonError.new) ∧
    (∀ f g : T → T, t.try_transition f = t.try_transition g) := by
  cases t with
  | mk i =>
    cases i with
    | ok w => simp at h
    | poisoned =>
        refine ⟨rfl, rfl, rfl, fun f => rfl, fun f g => rfl⟩

/-- Witness for C4: a concrete poisoned container over `Nat`. -/
theorem poisoned_ops_panic_witness :
    (Transitionable.mk (Inner.poisoned : Inner Nat)).try_into_inner =
        Except.error PoisonError.new ∧
    (Transitionable.mk (Inner.poisoned : Inner Nat)).try_get =
        Except.error PoisonError.new ∧
    (Transitionable.mk (Inner.poisoned : Inner Nat)).try_get_mut =
        Except.error PoisonError.new ∧
    (∀ f : Nat → Nat,
        ((Transitionable.mk (Inner.poisoned : Inner Nat)).try_transition f).1 =
          Except.error PoisonError.new) ∧
    (∀ f g : Nat → Nat,
        (Transitionable.mk (Inner.poisoned : Inner Nat)).try_transition f =
          (Transitionable.mk (Inner.poisoned : Inner Nat)).try_transition g) :=
  poisoned_ops_panic (Transitionable.mk (Inner.poisoned : Inner Nat)) rfl

/-- Claim C5: on a container holding a value, the unwind-safe swap strategy
and the abort-mode raw read/write strategy of `try_transition` agree: the
unwind branch succeeds, its returned reference and final state both equal
the (abstraction of the) abort branch's final state. -/
theorem transition_strategies_agree {T : Type} (t : TransitionableAbort T)
    (f : T → T) :
    (absAbort t).try_transition f =
      (Except.ok (absAbort (t.try_transition f)),
        absAbort (t.try_transition f)) := by
  cases t with
  | mk i =>
    cases i with
    | ok v =>
        simp [absAbort, TransitionableAbort.try_transition,
          Transitionable.try_transition, memReplace,
          Transitionable.transitionMidState]

/-- Claim C6: in the abort build, `is_poisoned` returns false for every
container regardless of any history of transition calls. -/
theorem abort_is_poisoned_always_false {T : Type} (t : TransitionableAbort T)
    (fs : List (T → T)) :
    (t.applyAll fs).is_poisoned = false :=
  rfl

/-- Claim C7: `transition` returns a reference usable for an immediate
subsequent call (each call succeeds, returning the container itself), and
chaining `f1` then `f2` from `new v` leaves the container holding the same
value as a single transition with the composition, namely `f2 (f1 v)`. -/
theorem transition_chaining {T : Type} (v : T) (f1 f2 : T → T) :
    ((Transitionable.new v).try_transition f1).1 =
      Except.ok ((Transitionable.new v).try_transition f1).2 ∧
    (((Transitionable.new v).try_transition f1).2.try_transition f2).1 =
      Except.ok (((Transitionable.new v).try_transition f1).2.try_transition f2).2 ∧
    (((Transitionable.new v).try_transition f1).2.try_transition f2).2 =
      ((Transitionable.new v).try_transition (f2 ∘ f1)).2 ∧
    (((Transitionable.new v).try_transition f1).2.try_transition f2).2.try_get =
      Except.ok (f2 (f1 v)) :=
  ⟨rfl, rfl, rfl, rfl⟩

/-- Claim C8 counterexample: the poison error's displayed text is not the
string with a trailing period that the claim states. -/
theorem display_string_not_period_terminated :
    poisonErrorDisplay ≠
      "poisoned transitionable: lost value due to panic in previous transition." := by
  decide

/-- Claim C8 (amended): the poison error's displayed text is exactly
"poisoned transitionable: lost value due to panic in previous transition",
with no trailing period. -/
theorem display_string_exact :
    poisonErrorDisplay =
      "poisoned transitionable: lost value due to panic in previous transition" :=
  rfl

/-- Claim C9: calling `try_transition` on an already-poisoned container
leaves the container unchanged — still poisoned — while returning the error. -/
theorem transition_on_poisoned_unchanged {T : Type} (t : Transitionable T)
    (f : T → T) (h : t.inner = Inner.poisoned) :
    (t.try_transition f).2 = t ∧ (t.try_transition f).2.is_poisoned = true := by
  cases t with
  | mk i =>
    cases i with
    | ok w => simp at h
    | poisoned =>
        exact ⟨rfl, rfl⟩

/-- Witness for C9: a concrete poisoned container over `Nat` and `f = id`. -/
theorem transition_on_poisoned_unchanged_witness :
    ((Transitionable.mk (Inner.poisoned : Inner Nat)).try_transition id).2 =
        Transitionable.mk (Inner.poisoned : Inner Nat) ∧
    ((Transitionable.mk (Inner.poisoned : Inner Nat)).try_transition
        id).2.is_poisoned = true :=
  transition_on_poisoned_unchanged
    (Transitionable.mk (Inner.poisoned : Inner Nat)) id rfl

/-- Claim C10: the derived equality is structural — `new v == new w` holds
exactly when `v == w`; a poisoned container equals any poisoned container
and differs from every container holding a value. -/
theorem derived_eq_structural {T : Type} [BEq T] (v w : T) :
    Transitionable.beq (Transitionable.new v) (Transitionable.new w) = (v == w) ∧
    Transitionable.beq (Transitionable.mk (Inner.poisoned : Inner T))
      (Transitionable.mk Inner.poisoned) = true ∧
    Transitionable.beq (Transitionable.mk (Inner.poisoned : Inner T))
      (Transitionable.new v) = false ∧
    Transitionable.beq (Transitionable.new v)
      (Transitionable.mk Inner.poisoned) = false :=
  ⟨rfl, rfl, rfl, rfl⟩

end Crate
